import Mathlib

/-!
# viam-ros-module: lifecycle of the ROS adapters

A shallow embedding of `src/sensors/batterysensor.go` (`BatterySensor`) and
`src/lidar/lidar.go` (`ROSLidar`).

* Go strings are Lean `String`s; `len` is the byte length.
* A Go pointer that may be nil is an `Option`.
* A Go `error` is `Option error` (`none` is the nil error).
* The goroslib client is a record of response functions, one per entry point
  the adapters call.  Every response may depend on the calls made before it.
* Each method threads a `World`: the program-order trace of the mutex
  operations, the accesses to the `msg` field, the goroslib calls and the
  logger warnings it performs.
-/

namespace ViamRos

/-! ## Go strings -/

/-- Go's `unicode.IsSpace`: the Latin-1 white space characters and the
`White_Space` code points above Latin-1. -/
def IsSpace (r : Char) : Bool :=
  if r.toNat ≤ 0xFF then
    r.toNat = 0x09 || r.toNat = 0x0A || r.toNat = 0x0B || r.toNat = 0x0C
      || r.toNat = 0x0D || r.toNat = 0x20 || r.toNat = 0x85 || r.toNat = 0xA0
  else
    r.toNat = 0x1680 || (0x2000 ≤ r.toNat && r.toNat ≤ 0x200A)
      || r.toNat = 0x2028 || r.toNat = 0x2029 || r.toNat = 0x202F
      || r.toNat = 0x205F || r.toNat = 0x3000

/-- Go's `strings.TrimSpace`: the string without its leading and trailing
white space. -/
def TrimSpace (s : String) : String :=
  String.mk (((s.data.dropWhile IsSpace).reverse.dropWhile IsSpace).reverse)

/-- Go's builtin `len` on a string: its length in bytes. -/
def len (s : String) : Nat :=
  s.utf8ByteSize

/-- A string is blank when it is empty or made of white space only. -/
def Blank (s : String) : Prop :=
  ∀ c ∈ s.data, IsSpace c = true

instance (s : String) : Decidable (Blank s) :=
  inferInstanceAs (Decidable (∀ c ∈ s.data, IsSpace c = true))

/-! ## The goroslib boundary -/

/-- A Go `error` value, identified by its message. -/
abbrev error := String

/-- A live `*goroslib.Node`, identified by the address the client gave it. -/
structure Node where
  id : Nat
  deriving DecidableEq, Repr

/-- A live `*goroslib.Subscriber`. -/
structure Subscriber where
  id : Nat
  deriving DecidableEq, Repr

/-- The callbacks an adapter hands to a subscriber. -/
inductive Callback where
  | processMessage
  deriving DecidableEq, Repr

/-- The fields of `goroslib.NodeConf` the adapters set. -/
structure NodeConf where
  Name : String
  MasterAddress : String
  deriving DecidableEq, Repr

/-- The fields of `goroslib.SubscriberConf` the adapters set; `Node` is the
(possibly nil) node pointer, `Callback` is absent when the field is left at
its zero value. -/
structure SubscriberConf where
  Node : Option Node
  Topic : String
  Callback : Option Callback
  deriving DecidableEq, Repr

/-- A call into the goroslib client. -/
inductive BusCall where
  | NewNode (conf : NodeConf)
  | NewSubscriber (conf : SubscriberConf)
  | NodeClose (n : Node)
  | SubscriberClose (s : Subscriber)
  deriving DecidableEq, Repr

/-- The goroslib client as the adapters see it.  Every entry point receives
the calls made so far, so its answer may change over time.  A failed
constructor returns a nil handle together with its error, which is the
`Except.error` case. -/
structure Goroslib where
  NewNode : List BusCall → NodeConf → Except error Node
  NewSubscriber : List BusCall → SubscriberConf → Except error Subscriber
  NodeClose : List BusCall → Node → Option error
  SubscriberClose : List BusCall → Subscriber → Option error

/-- The pointer a goroslib constructor returns: nil with an error. -/
def ptr {α : Type} (r : Except error α) : Option α :=
  match r with
  | .ok a => some a
  | .error _ => none

/-- The error a goroslib constructor returns: nil with a handle. -/
def err {α : Type} (r : Except error α) : Option error :=
  match r with
  | .ok _ => none
  | .error e => some e

/-! ## Effects -/

/-- What a method does besides updating the adapter, in program order. -/
inductive Event where
  | Lock
  | Unlock
  | LoadMsg
  | StoreMsg
  | Call (c : BusCall)
  | Warn (text : String)
  deriving DecidableEq, Repr

/-- The goroslib call of an event, when it is one. -/
def Event.call? : Event → Option BusCall
  | .Call c => some c
  | _ => none

/-- The trace of everything done so far. -/
structure World where
  trace : List Event
  deriving DecidableEq, Repr

/-- The goroslib calls made so far, oldest first. -/
def World.calls (w : World) : List BusCall :=
  w.trace.filterMap Event.call?

/-- The world after one more event. -/
def World.emit (w : World) (e : Event) : World :=
  { trace := w.trace ++ [e] }

/-- How a Go call ends. -/
inductive Outcome (α : Type) where
  | returned (a : α)
  | panicked (text : String)
  deriving DecidableEq, Repr

/-- The result of a method with a pointer receiver: the world and the
receiver after the call, and what the call returned. -/
structure Step (σ ρ : Type) where
  world : World
  self : σ
  ret : ρ

/-! ## Configuration -/

/-- The attributes of a `resource.Config`, restricted to string values. -/
abbrev AttributeMap := List (String × String)

/-- The value of `conf.Attributes.String(name)`: the attribute, or the empty
string when the attribute is not set. -/
def AttributeMap.String (am : AttributeMap) (name : String) : String :=
  (am.lookup name).getD ""

/-- The part of `resource.Config` the adapters read. -/
structure Config where
  Name : String
  Attributes : AttributeMap
  deriving DecidableEq, Repr

/-! ## The battery sensor (`src/sensors/batterysensor.go`) -/

/-- A Go `float32`, identified by its bit pattern. -/
structure float32 where
  bits : Nat
  deriving DecidableEq, Repr

/-- The field of `transbot_msgs.Battery` the sensor reads. -/
structure Battery where
  Voltage : float32
  deriving DecidableEq, Repr

/-- A Go `interface{}` value, as far as the readings use it. -/
inductive Any where
  | float32 (x : float32)
  | string (s : String)
  deriving DecidableEq, Repr

/-- A Go `map[string]interface{}`, as its list of entries. -/
abbrev Readings := List (String × Any)

/-- The fields of `BatterySensor` (the mutex and the logger are seen through
the events on the world). -/
structure BatterySensor where
  Named : String
  nodeName : String
  primaryUri : String
  topic : String
  node : Option Node
  subscriber : Option Subscriber
  msg : Option Battery
  deriving DecidableEq, Repr

/-- The panic of a method called through a nil pointer. -/
def nilDereference : String :=
  "runtime error: invalid memory address or nil pointer dereference"

/-- The method `BatterySensor.Reconfigure`. -/
def BatterySensor.Reconfigure (ros : Goroslib) (w : World) (b : BatterySensor)
    (conf : Config) : Step BatterySensor (Option error) :=
  let w := w.emit .Lock
  let b := { b with nodeName := conf.Attributes.String "node_name" }
  let b := { b with primaryUri := conf.Attributes.String "primary_uri" }
  let b := { b with topic := conf.Attributes.String "topic" }
  if len (TrimSpace b.primaryUri) = 0 then
    ⟨w.emit .Unlock, b, some "ROS primary uri must be set to hostname:port"⟩
  else if len (TrimSpace b.topic) = 0 then
    ⟨w.emit .Unlock, b, some "ROS topic must be set to valid sensor topic"⟩
  else
    let b := if len (TrimSpace b.nodeName) = 0
      then { b with nodeName := "viam_batterysensor_node" } else b
    let w := match b.subscriber with
      | some s =>
        let r := ros.SubscriberClose w.calls s
        let w := w.emit (.Call (.SubscriberClose s))
        if r ≠ none then w.emit (.Warn "failed to close subscriber") else w
      | none => w
    let w := match b.node with
      | some n =>
        let r := ros.NodeClose w.calls n
        let w := w.emit (.Call (.NodeClose n))
        if r ≠ none then w.emit (.Warn "failed to close node") else w
      | none => w
    let nodeConf : NodeConf := { Name := b.nodeName, MasterAddress := b.primaryUri }
    let r := ros.NewNode w.calls nodeConf
    let w := w.emit (.Call (.NewNode nodeConf))
    let b := { b with node := ptr r }
    match err r with
    | some e => ⟨w.emit .Unlock, b, some e⟩
    | none =>
      let subConf : SubscriberConf :=
        { Node := b.node, Topic := b.topic, Callback := some .processMessage }
      let r := ros.NewSubscriber w.calls subConf
      let w := w.emit (.Call (.NewSubscriber subConf))
      let b := { b with subscriber := ptr r }
      match err r with
      | some e => ⟨w.emit .Unlock, b, some e⟩
      | none => ⟨w.emit .Unlock, b, none⟩

/-- The constructor `NewBatterySensor`: the new sensor, or nil and the error
of its first `Reconfigure`. -/
def NewBatterySensor (ros : Goroslib) (w : World) (conf : Config) :
    Step (Option BatterySensor) (Option error) :=
  let b : BatterySensor :=
    { Named := conf.Name, nodeName := "", primaryUri := "", topic := "",
      node := none, subscriber := none, msg := none }
  let r := b.Reconfigure ros w conf
  match r.ret with
  | some e => ⟨r.world, none, some e⟩
  | none => ⟨r.world, some r.self, none⟩

/-- The method `BatterySensor.processMessage`, the subscriber's callback. -/
def BatterySensor.processMessage (w : World) (b : BatterySensor)
    (msg : Option Battery) : Step BatterySensor Unit :=
  ⟨w.emit .StoreMsg, { b with msg := msg }, ()⟩

/-- The method `BatterySensor.Readings`; its second argument is ignored. -/
def BatterySensor.Readings (w : World) (b : BatterySensor) (_extra : Readings) :
    Step BatterySensor (Option Readings × Option error) :=
  let w := w.emit .LoadMsg
  match b.msg with
  | none => ⟨w, b, (none, some "battery message not prepared")⟩
  | some m =>
    let w := w.emit .LoadMsg
    ⟨w, b, (some [("voltage", Any.float32 m.Voltage)], none)⟩

/-- The method `BatterySensor.Close`.  Both close methods dereference their
receiver, so a nil handle makes the call panic. -/
def BatterySensor.Close (ros : Goroslib) (w : World) (b : BatterySensor) :
    Step BatterySensor (Outcome (Option error)) :=
  match b.subscriber with
  | none => ⟨w, b, .panicked nilDereference⟩
  | some s =>
    let _err := ros.SubscriberClose w.calls s
    let w := w.emit (.Call (.SubscriberClose s))
    match b.node with
    | none => ⟨w, b, .panicked nilDereference⟩
    | some n =>
      let err := ros.NodeClose w.calls n
      let w := w.emit (.Call (.NodeClose n))
      ⟨w, b, .returned err⟩

/-! ## The lidar (`src/lidar/lidar.go`) -/

/-- The fields of `ROSLidar`; `timeRate` is never assigned. -/
structure ROSLidar where
  Named : String
  nodeName : String
  primaryUri : String
  topic : String
  node : Option Node
  subscriber : Option Subscriber
  deriving DecidableEq, Repr

/-- The method `ROSLidar.Reconfigure`.  The error of `NewNode` is overwritten
by the one of `NewSubscriber`, which is called in every case and without a
callback. -/
def ROSLidar.Reconfigure (ros : Goroslib) (w : World) (l : ROSLidar)
    (conf : Config) : Step ROSLidar (Option error) :=
  let w := w.emit .Lock
  let l := { l with nodeName := conf.Attributes.String "node_name" }
  let l := { l with primaryUri := conf.Attributes.String "primary_uri" }
  let l := { l with topic := conf.Attributes.String "topic" }
  if len (TrimSpace l.primaryUri) = 0 then
    ⟨w.emit .Unlock, l, some "ROS primary uri must be set to hostname:port"⟩
  else if len (TrimSpace l.topic) = 0 then
    ⟨w.emit .Unlock, l, some "ROS topic must be set to valid imu topic"⟩
  else
    let l := if len (TrimSpace l.nodeName) = 0
      then { l with nodeName := "viam_lidar_node" } else l
    let w := match l.subscriber with
      | some s =>
        let r := ros.SubscriberClose w.calls s
        let w := w.emit (.Call (.SubscriberClose s))
        if r ≠ none then w.emit (.Warn "failed to close subscriber") else w
      | none => w
    let w := match l.node with
      | some n =>
        let r := ros.NodeClose w.calls n
        let w := w.emit (.Call (.NodeClose n))
        if r ≠ none then w.emit (.Warn "failed to close node") else w
      | none => w
    let nodeConf : NodeConf := { Name := l.nodeName, MasterAddress := l.primaryUri }
    let r := ros.NewNode w.calls nodeConf
    let w := w.emit (.Call (.NewNode nodeConf))
    let l := { l with node := ptr r }
    let _err := err r
    let subConf : SubscriberConf := { Node := l.node, Topic := l.topic, Callback := none }
    let r := ros.NewSubscriber w.calls subConf
    let w := w.emit (.Call (.NewSubscriber subConf))
    let l := { l with subscriber := ptr r }
    match err r with
    | some e => ⟨w.emit .Unlock, l, some e⟩
    | none => ⟨w.emit .Unlock, l, none⟩

/-- The constructor `NewROSLidar`. -/
def NewROSLidar (ros : Goroslib) (w : World) (conf : Config) :
    Step (Option ROSLidar) (Option error) :=
  let l : ROSLidar :=
    { Named := conf.Name, nodeName := "", primaryUri := "", topic := "",
      node := none, subscriber := none }
  let r := l.Reconfigure ros w conf
  match r.ret with
  | some e => ⟨r.world, none, some e⟩
  | none => ⟨r.world, some r.self, none⟩

/-- The method `ROSLidar.Close`: an unconditional `panic("implement me")`. -/
def ROSLidar.Close (w : World) (l : ROSLidar) : Step ROSLidar (Outcome (Option error)) :=
  ⟨w, l, .panicked "implement me"⟩

/-! ## Expected calls -/

/-- The close calls that release the handles an adapter holds: the subscriber
first, then the node; a nil handle is skipped. -/
def teardown (subscriber : Option Subscriber) (node : Option Node) : List BusCall :=
  (subscriber.map BusCall.SubscriberClose).toList ++ (node.map BusCall.NodeClose).toList

/-- The node configuration of a configuration: its `node_name`, or the given
default when that is blank, and its `primary_uri` as master address. -/
def nodeConfOf (dflt : String) (conf : Config) : NodeConf :=
  { Name := if Blank (conf.Attributes.String "node_name") then dflt
      else conf.Attributes.String "node_name",
    MasterAddress := conf.Attributes.String "primary_uri" }

/-! ## Lock discipline -/

/-- Follows the specification's words: every load and store of the last
message happens while the mutex is held.  The first argument tells whether
the mutex is held before the events. -/
def GuardedByLock : Bool → List Event → Bool
  | _, [] => true
  | _, .Lock :: es => GuardedByLock true es
  | _, .Unlock :: es => GuardedByLock false es
  | held, .LoadMsg :: es => held && GuardedByLock held es
  | held, .StoreMsg :: es => held && GuardedByLock held es
  | held, .Call _ :: es => GuardedByLock held es
  | held, .Warn _ :: es => GuardedByLock held es

/-! ## Sample inputs -/

/-- A client whose opens and closes all succeed; handles are numbered by the
position of the call that made them. -/
def rosOk : Goroslib where
  NewNode calls _ := .ok ⟨calls.length⟩
  NewSubscriber calls _ := .ok ⟨calls.length⟩
  NodeClose _ _ := none
  SubscriberClose _ _ := none

/-- A client that cannot reach the master: no node opens, closes fail too. -/
def rosDown : Goroslib where
  NewNode _ _ := .error "master unreachable"
  NewSubscriber calls _ := .ok ⟨calls.length⟩
  NodeClose _ _ := some "node close failed"
  SubscriberClose _ _ := some "subscriber close failed"

/-- A client whose opens succeed and whose closes fail. -/
def rosCloseFails : Goroslib where
  NewNode calls _ := .ok ⟨calls.length⟩
  NewSubscriber calls _ := .ok ⟨calls.length⟩
  NodeClose _ _ := some "node close failed"
  SubscriberClose _ _ := some "subscriber close failed"

/-- A client that refuses a subscriber without a node or without a callback
and accepts everything else. -/
def rosStrict : Goroslib where
  NewNode calls _ := .ok ⟨calls.length⟩
  NewSubscriber calls c :=
    if c.Node = none then .error "Node is empty"
    else if c.Callback = none then .error "Callback is empty"
    else .ok ⟨calls.length⟩
  NodeClose _ _ := none
  SubscriberClose _ _ := none

/-- The world before anything happened. -/
def w0 : World := { trace := [] }

/-- A complete configuration without a node name. -/
def confOk : Config :=
  { Name := "battery", Attributes := [("primary_uri", "localhost:11311"), ("topic", "/voltage")] }

/-- A configuration whose topic is white space only. -/
def confBlankTopic : Config :=
  { Name := "battery", Attributes := [("primary_uri", "localhost:11311"), ("topic", " \t")] }

/-- A complete configuration whose node name is white space only. -/
def confBlankName : Config :=
  { Name := "sensor",
    Attributes := [("node_name", " "), ("primary_uri", "localhost:11311"), ("topic", "/t")] }

/-- A configured battery sensor that has received a message. -/
def b1 : BatterySensor :=
  { Named := "battery", nodeName := "n", primaryUri := "localhost:11311", topic := "/voltage",
    node := some ⟨1⟩, subscriber := some ⟨2⟩, msg := some ⟨⟨0x41400000⟩⟩ }

/-- A configured lidar. -/
def l1 : ROSLidar :=
  { Named := "lidar", nodeName := "n", primaryUri := "localhost:11311", topic := "/scan",
    node := some ⟨1⟩, subscriber := some ⟨2⟩ }

/-! ## Strings: blank means trimmed to nothing -/

theorem len_eq_zero_iff (s : String) : len s = 0 ↔ s = "" := by
  rcases s with ⟨l⟩
  cases l with
  | nil => simp [len, String.utf8ByteSize, String.utf8ByteSize.go]
  | cons c cs =>
    have hc := Char.utf8Size_pos c
    have hne : (String.mk (c :: cs)) ≠ "" := by
      intro h
      have := congrArg String.data h
      simp at this
    simp only [len, String.utf8ByteSize, String.utf8ByteSize.go, hne, iff_false]
    omega

theorem dropWhile_nil_of_all_tail {α : Type} (p : α → Bool) (l : List α)
    (h : ∀ x ∈ l.dropWhile p, p x = true) : l.dropWhile p = [] := by
  by_contra hne
  have hhead := List.head_dropWhile_not p l hne
  have hmem := List.head_mem hne
  rw [h _ hmem] at hhead
  exact Bool.noConfusion hhead

theorem TrimSpace_eq_empty_iff (s : String) : TrimSpace s = "" ↔ Blank s := by
  unfold TrimSpace Blank
  rw [String.ext_iff]
  simp only [List.reverse_eq_nil_iff, List.dropWhile_eq_nil_iff, List.mem_reverse]
  constructor
  · intro h
    exact List.dropWhile_eq_nil_iff.mp (dropWhile_nil_of_all_tail IsSpace s.data h)
  · intro h x hx
    exact h x ((List.dropWhile_sublist IsSpace).subset hx)

/-- The test `len(strings.TrimSpace(s)) == 0` of both `Reconfigure` methods
holds exactly for the blank strings. -/
theorem len_TrimSpace_eq_zero_iff (s : String) : len (TrimSpace s) = 0 ↔ Blank s := by
  rw [len_eq_zero_iff, TrimSpace_eq_empty_iff]

/-! ## Traces -/

@[simp] theorem calls_emit_Call (w : World) (c : BusCall) :
    (w.emit (.Call c)).calls = w.calls ++ [c] := by
  simp [World.emit, World.calls, Event.call?]

@[simp] theorem calls_emit_Lock (w : World) : (w.emit .Lock).calls = w.calls := by
  simp [World.emit, World.calls, Event.call?]

@[simp] theorem calls_emit_Unlock (w : World) : (w.emit .Unlock).calls = w.calls := by
  simp [World.emit, World.calls, Event.call?]

@[simp] theorem calls_emit_LoadMsg (w : World) : (w.emit .LoadMsg).calls = w.calls := by
  simp [World.emit, World.calls, Event.call?]

@[simp] theorem calls_emit_StoreMsg (w : World) : (w.emit .StoreMsg).calls = w.calls := by
  simp [World.emit, World.calls, Event.call?]

@[simp] theorem calls_emit_Warn (w : World) (t : String) : (w.emit (.Warn t)).calls = w.calls := by
  simp [World.emit, World.calls, Event.call?]

@[simp] theorem calls_warn_ite (c : Prop) [Decidable c] (w : World) (t : String) :
    (if c then w.emit (.Warn t) else w).calls = w.calls := by
  split <;> simp

/-! ## Rejected configurations -/

theorem BatterySensor.Reconfigure_blank (ros : Goroslib) (w : World) (b : BatterySensor)
    (conf : Config)
    (h : Blank (conf.Attributes.String "primary_uri") ∨ Blank (conf.Attributes.String "topic")) :
    (b.Reconfigure ros w conf).ret ≠ none ∧
    (b.Reconfigure ros w conf).world.trace = w.trace ++ [.Lock, .Unlock] ∧
    (b.Reconfigure ros w conf).self.node = b.node ∧
    (b.Reconfigure ros w conf).self.subscriber = b.subscriber := by
  unfold BatterySensor.Reconfigure
  by_cases hu : len (TrimSpace (conf.Attributes.String "primary_uri")) = 0
  · simp [hu, World.emit]
  · have ht : len (TrimSpace (conf.Attributes.String "topic")) = 0 := by
      rcases h with h | h
      · exact absurd ((len_TrimSpace_eq_zero_iff _).mpr h) hu
      · exact (len_TrimSpace_eq_zero_iff _).mpr h
    simp [hu, ht, World.emit]

theorem ROSLidar.Reconfigure_rejects_blank (ros : Goroslib) (w : World) (l : ROSLidar)
    (conf : Config)
    (h : Blank (conf.Attributes.String "primary_uri") ∨ Blank (conf.Attributes.String "topic")) :
    (l.Reconfigure ros w conf).ret ≠ none ∧
    (l.Reconfigure ros w conf).world.trace = w.trace ++ [.Lock, .Unlock] ∧
    (l.Reconfigure ros w conf).self.node = l.node ∧
    (l.Reconfigure ros w conf).self.subscriber = l.subscriber := by
  unfold ROSLidar.Reconfigure
  by_cases hu : len (TrimSpace (conf.Attributes.String "primary_uri")) = 0
  · simp [hu, World.emit]
  · have ht : len (TrimSpace (conf.Attributes.String "topic")) = 0 := by
      rcases h with h | h
      · exact absurd ((len_TrimSpace_eq_zero_iff _).mpr h) hu
      · exact (len_TrimSpace_eq_zero_iff _).mpr h
    simp [hu, ht, World.emit]

/-- C1: for both adapter kinds, in every adapter state and for every
configuration whose `primary_uri` or `topic` is blank, `Reconfigure` returns
an error, does nothing but take and release the mutex (so it makes no call
into the bus client: nothing is opened, nothing is closed), and leaves the
node and subscriber fields as they were. -/
theorem C1_blank_configuration_rejected (ros : Goroslib) (w : World) (b : BatterySensor)
    (l : ROSLidar) (conf : Config)
    (h : Blank (conf.Attributes.String "primary_uri") ∨ Blank (conf.Attributes.String "topic")) :
    ((b.Reconfigure ros w conf).ret ≠ none ∧
      (b.Reconfigure ros w conf).world.trace = w.trace ++ [.Lock, .Unlock] ∧
      (b.Reconfigure ros w conf).world.calls = w.calls ∧
      (b.Reconfigure ros w conf).self.node = b.node ∧
      (b.Reconfigure ros w conf).self.subscriber = b.subscriber) ∧
    ((l.Reconfigure ros w conf).ret ≠ none ∧
      (l.Reconfigure ros w conf).world.trace = w.trace ++ [.Lock, .Unlock] ∧
      (l.Reconfigure ros w conf).world.calls = w.calls ∧
      (l.Reconfigure ros w conf).self.node = l.node ∧
      (l.Reconfigure ros w conf).self.subscriber = l.subscriber) := by
  obtain ⟨hb1, hb2, hb3, hb4⟩ := BatterySensor.Reconfigure_blank ros w b conf h
  obtain ⟨hl1, hl2, hl3, hl4⟩ := ROSLidar.Reconfigure_rejects_blank ros w l conf h
  refine ⟨⟨hb1, hb2, ?_, hb3, hb4⟩, ⟨hl1, hl2, ?_, hl3, hl4⟩⟩
  · simp [World.calls, hb2, Event.call?]
  · simp [World.calls, hl2, Event.call?]

/-- C1 on a configured sensor and a configured lidar, with a topic made of a
space and a tab. -/
theorem C1_blank_configuration_rejected_witness :
    (Blank (confBlankTopic.Attributes.String "primary_uri") ∨
      Blank (confBlankTopic.Attributes.String "topic")) ∧
    ((b1.Reconfigure rosOk w0 confBlankTopic).ret ≠ none ∧
      (b1.Reconfigure rosOk w0 confBlankTopic).world.trace = w0.trace ++ [.Lock, .Unlock] ∧
      (b1.Reconfigure rosOk w0 confBlankTopic).world.calls = w0.calls ∧
      (b1.Reconfigure rosOk w0 confBlankTopic).self.node = b1.node ∧
      (b1.Reconfigure rosOk w0 confBlankTopic).self.subscriber = b1.subscriber) ∧
    ((l1.Reconfigure rosOk w0 confBlankTopic).ret ≠ none ∧
      (l1.Reconfigure rosOk w0 confBlankTopic).world.trace = w0.trace ++ [.Lock, .Unlock] ∧
      (l1.Reconfigure rosOk w0 confBlankTopic).world.calls = w0.calls ∧
      (l1.Reconfigure rosOk w0 confBlankTopic).self.node = l1.node ∧
      (l1.Reconfigure rosOk w0 confBlankTopic).self.subscriber = l1.subscriber) :=
  ⟨by decide, C1_blank_configuration_rejected rosOk w0 b1 l1 confBlankTopic (by decide)⟩

/-! ## Readings -/

/-- C4: for the battery sensor, for every message `M` and every options
argument, once `processMessage(M)` has run, `Readings` returns no error and
the map with the single entry `"voltage"` to `M.Voltage`, whatever the sensor
was before and whatever the options are, and it leaves the sensor
unchanged. -/
theorem C4_readings_after_message (w w' : World) (b : BatterySensor) (M : Battery)
    (extra : Readings) :
    ((b.processMessage w (some M)).self.Readings w' extra).ret =
      (some [("voltage", Any.float32 M.Voltage)], none) ∧
    ((b.processMessage w (some M)).self.Readings w' extra).self =
      (b.processMessage w (some M)).self ∧
    (b.processMessage w (some M)).self.msg = some M := by
  simp [BatterySensor.processMessage, BatterySensor.Readings]

/-! ## Close -/

/-- C6 fails as stated: with a client whose close calls fail, `Close` on a
configured battery sensor hands the error of the node close to its caller. -/
theorem C6_counterexample :
    (b1.Close rosCloseFails w0).ret = .returned (some "node close failed") := by
  decide

/-- C6, amended: for the battery sensor holding a subscriber and a node,
`Close` closes the subscriber and then the node and returns exactly what the
node close returned; what the subscriber close returned is dropped. -/
theorem C6_close_returns_node_close_result (ros : Goroslib) (w : World) (b : BatterySensor)
    (s : Subscriber) (n : Node) (hs : b.subscriber = some s) (hn : b.node = some n) :
    (b.Close ros w).world.calls = w.calls ++ [.SubscriberClose s, .NodeClose n] ∧
    (b.Close ros w).ret =
      .returned (ros.NodeClose (w.calls ++ [.SubscriberClose s]) n) ∧
    (∀ f, (b.Close { ros with SubscriberClose := f } w).ret = (b.Close ros w).ret) := by
  simp [BatterySensor.Close, hs, hn]

/-- C6, amended, on a configured sensor whose bus client fails every close. -/
theorem C6_close_returns_node_close_result_witness :
    (b1.subscriber = some ⟨2⟩ ∧ b1.node = some ⟨1⟩) ∧
    ((b1.Close rosCloseFails w0).world.calls =
        w0.calls ++ [.SubscriberClose ⟨2⟩, .NodeClose ⟨1⟩] ∧
      (b1.Close rosCloseFails w0).ret =
        .returned (rosCloseFails.NodeClose (w0.calls ++ [.SubscriberClose ⟨2⟩]) ⟨1⟩) ∧
      (∀ f, (b1.Close { rosCloseFails with SubscriberClose := f } w0).ret =
        (b1.Close rosCloseFails w0).ret)) :=
  ⟨⟨by decide, by decide⟩,
    C6_close_returns_node_close_result rosCloseFails w0 b1 ⟨2⟩ ⟨1⟩ (by decide) (by decide)⟩

/-- The battery sensor's `Close` keeps every field, the handles included. -/
theorem BatterySensor.Close_self (ros : Goroslib) (w : World) (b : BatterySensor) :
    (b.Close ros w).self = b := by
  unfold BatterySensor.Close
  cases b.subscriber <;> cases b.node <;> rfl

/-- The battery sensor's `Close` returns when both handles are set, also when
it is called a second time. -/
theorem BatterySensor.Close_returns (ros : Goroslib) (w : World) (b : BatterySensor)
    (s : Subscriber) (n : Node) (hs : b.subscriber = some s) (hn : b.node = some n) :
    (∃ e, (b.Close ros w).ret = .returned e) ∧
    (∃ e, ((b.Close ros w).self.Close ros (b.Close ros w).world).ret = .returned e) := by
  rw [BatterySensor.Close_self]
  simp [BatterySensor.Close, hs, hn]

/-- C7 at its failing input: `Close` of the lidar panics with "implement me"
in every state, so it never returns normally, neither on a configured lidar
nor on a second call. -/
theorem C7_lidar_close_panics (w : World) (l : ROSLidar) :
    (l.Close w).ret = .panicked "implement me" ∧
    ((l.Close w).self.Close (l.Close w).world).ret = .panicked "implement me" := by
  simp [ROSLidar.Close]

/-- C8 fails as stated: a battery sensor that received a message before
`Close` still answers `Readings` with that message's voltage afterwards. -/
theorem C8_counterexample :
    ((b1.Close rosOk w0).self.Readings (b1.Close rosOk w0).world []).ret =
      (some [("voltage", Any.float32 ⟨0x41400000⟩)], none) := by
  decide

/-- C8, amended: for the battery sensor, `Close` changes no field, so every
later `Readings` answers as it did before the `Close`: with an error when no
message was received, with the voltage of the last message otherwise. -/
theorem C8_readings_after_close (ros : Goroslib) (w w' : World) (b : BatterySensor)
    (extra : Readings) :
    ((b.Close ros w).self.Readings w' extra).ret = (b.Readings w' extra).ret ∧
    (b.Readings w' extra).ret =
      (match b.msg with
        | none => (none, some "battery message not prepared")
        | some m => (some [("voltage", Any.float32 m.Voltage)], none)) := by
  rw [BatterySensor.Close_self]
  refine ⟨rfl, ?_⟩
  unfold BatterySensor.Readings
  cases b.msg <;> rfl

/-! ## The mutex -/

/-- The battery sensor's `Reconfigure` starts by locking the mutex. -/
theorem BatterySensor.Reconfigure_trace_starts (ros : Goroslib) (w : World)
    (b : BatterySensor) (conf : Config) :
    ∃ post, (b.Reconfigure ros w conf).world.trace = w.trace ++ ([.Lock] ++ post) := by
  unfold BatterySensor.Reconfigure
  simp only [World.emit]
  split_ifs
  · exact ⟨_, List.append_assoc _ _ _⟩
  · exact ⟨_, List.append_assoc _ _ _⟩
  all_goals
    cases b.subscriber <;> cases b.node <;> dsimp only <;>
    split <;> (try split) <;> (try split_ifs) <;>
    simp only [List.append_assoc] <;>
    exact ⟨_, rfl⟩

/-- The battery sensor's `Reconfigure` ends by unlocking the mutex. -/
theorem BatterySensor.Reconfigure_trace_ends (ros : Goroslib) (w : World)
    (b : BatterySensor) (conf : Config) :
    ∃ pre, (b.Reconfigure ros w conf).world.trace = pre ++ [.Unlock] := by
  unfold BatterySensor.Reconfigure
  simp only [World.emit]
  split_ifs
  · exact ⟨_, rfl⟩
  · exact ⟨_, rfl⟩
  all_goals
    split <;> (try split) <;> exact ⟨_, rfl⟩

/-- C10 at its failing input: `processMessage` stores the last message and
`Readings` loads it without taking the mutex, so neither trace is guarded by
the lock, whereas `Reconfigure` starts by locking and ends by unlocking. -/
theorem C10_message_access_without_lock (ros : Goroslib) (b : BatterySensor)
    (m : Option Battery) (extra : Readings) (conf : Config) :
    (b.processMessage w0 m).world.trace = [.StoreMsg] ∧
    GuardedByLock false (b.processMessage w0 m).world.trace = false ∧
    (b.Readings w0 extra).world.trace.head? = some .LoadMsg ∧
    GuardedByLock false (b.Readings w0 extra).world.trace = false ∧
    (b.Reconfigure ros w0 conf).world.trace.head? = some .Lock ∧
    (b.Reconfigure ros w0 conf).world.trace.getLast? = some .Unlock := by
  obtain ⟨post, hpost⟩ := BatterySensor.Reconfigure_trace_starts ros w0 b conf
  obtain ⟨pre, hpre⟩ := BatterySensor.Reconfigure_trace_ends ros w0 b conf
  refine ⟨rfl, rfl, ?_, ?_, ?_, ?_⟩
  · unfold BatterySensor.Readings
    cases b.msg <;> rfl
  · unfold BatterySensor.Readings
    cases b.msg <;> rfl
  · rw [hpost]
    rfl
  · rw [hpre]
    simp

/-! ## Accepted configurations -/

/-- What the battery sensor's `Reconfigure` does with a configuration that
passes validation. -/
theorem BatterySensor.Reconfigure_valid (ros : Goroslib) (w : World) (b : BatterySensor)
    (conf : Config) (hu : ¬ Blank (conf.Attributes.String "primary_uri"))
    (ht : ¬ Blank (conf.Attributes.String "topic")) :
    (b.Reconfigure ros w conf).self.msg = b.msg ∧
    (b.Reconfigure ros w conf).self.nodeName = (nodeConfOf "viam_batterysensor_node" conf).Name ∧
    (b.Reconfigure ros w conf).self.node =
      ptr (ros.NewNode (w.calls ++ teardown b.subscriber b.node)
        (nodeConfOf "viam_batterysensor_node" conf)) ∧
    (match ros.NewNode (w.calls ++ teardown b.subscriber b.node)
        (nodeConfOf "viam_batterysensor_node" conf) with
      | .error e =>
        (b.Reconfigure ros w conf).ret = some e ∧
        (b.Reconfigure ros w conf).world.calls = w.calls ++ teardown b.subscriber b.node ++
          [.NewNode (nodeConfOf "viam_batterysensor_node" conf)] ∧
        (b.Reconfigure ros w conf).self.subscriber = b.subscriber
      | .ok nd =>
        (b.Reconfigure ros w conf).ret =
          err (ros.NewSubscriber (w.calls ++ teardown b.subscriber b.node ++
              [.NewNode (nodeConfOf "viam_batterysensor_node" conf)])
            ⟨some nd, conf.Attributes.String "topic", some .processMessage⟩) ∧
        (b.Reconfigure ros w conf).world.calls = w.calls ++ teardown b.subscriber b.node ++
          [.NewNode (nodeConfOf "viam_batterysensor_node" conf),
           .NewSubscriber ⟨some nd, conf.Attributes.String "topic", some .processMessage⟩] ∧
        (b.Reconfigure ros w conf).self.subscriber =
          ptr (ros.NewSubscriber (w.calls ++ teardown b.subscriber b.node ++
              [.NewNode (nodeConfOf "viam_batterysensor_node" conf)])
            ⟨some nd, conf.Attributes.String "topic", some .processMessage⟩)) := by
  have hu' : ¬ len (TrimSpace (conf.Attributes.String "primary_uri")) = 0 :=
    fun h => hu ((len_TrimSpace_eq_zero_iff _).mp h)
  have ht' : ¬ len (TrimSpace (conf.Attributes.String "topic")) = 0 :=
    fun h => ht ((len_TrimSpace_eq_zero_iff _).mp h)
  unfold BatterySensor.Reconfigure
  simp only [hu', ht', if_false, len_TrimSpace_eq_zero_iff]
  by_cases hb : Blank (conf.Attributes.String "node_name") <;>
  cases hs : b.subscriber <;> cases hn : b.node <;>
  simp only [hb, hs, hn, if_true, if_false, teardown, nodeConfOf, Option.map, Option.toList,
    List.append_nil, List.nil_append, calls_emit_Call, calls_emit_Lock, calls_emit_Unlock,
    calls_warn_ite, List.append_assoc, List.singleton_append] <;>
  generalize ros.NewNode _ _ = rN <;>
  cases rN <;>
  simp only [ptr, err, calls_emit_Call, calls_emit_Lock, calls_emit_Unlock, calls_warn_ite,
    List.append_assoc, List.singleton_append, List.cons_append, List.nil_append, and_self] <;>
  generalize ros.NewSubscriber _ _ = rS <;>
  cases rS <;>
  simp only [ptr, err, calls_emit_Call, calls_emit_Lock, calls_emit_Unlock, calls_warn_ite,
    List.append_assoc, List.singleton_append, List.cons_append, List.nil_append, and_self]

/-- What the lidar's `Reconfigure` does with a configuration that passes
validation. -/
theorem ROSLidar.Reconfigure_accepted (ros : Goroslib) (w : World) (l : ROSLidar)
    (conf : Config) (hu : ¬ Blank (conf.Attributes.String "primary_uri"))
    (ht : ¬ Blank (conf.Attributes.String "topic")) :
    (l.Reconfigure ros w conf).self.nodeName = (nodeConfOf "viam_lidar_node" conf).Name ∧
    (l.Reconfigure ros w conf).self.node =
      ptr (ros.NewNode (w.calls ++ teardown l.subscriber l.node)
        (nodeConfOf "viam_lidar_node" conf)) ∧
    (l.Reconfigure ros w conf).self.subscriber =
      ptr (ros.NewSubscriber (w.calls ++ teardown l.subscriber l.node ++
          [.NewNode (nodeConfOf "viam_lidar_node" conf)])
        ⟨ptr (ros.NewNode (w.calls ++ teardown l.subscriber l.node)
          (nodeConfOf "viam_lidar_node" conf)), conf.Attributes.String "topic", none⟩) ∧
    (l.Reconfigure ros w conf).ret =
      err (ros.NewSubscriber (w.calls ++ teardown l.subscriber l.node ++
          [.NewNode (nodeConfOf "viam_lidar_node" conf)])
        ⟨ptr (ros.NewNode (w.calls ++ teardown l.subscriber l.node)
          (nodeConfOf "viam_lidar_node" conf)), conf.Attributes.String "topic", none⟩) ∧
    (l.Reconfigure ros w conf).world.calls = w.calls ++ teardown l.subscriber l.node ++
      [.NewNode (nodeConfOf "viam_lidar_node" conf),
       .NewSubscriber ⟨ptr (ros.NewNode (w.calls ++ teardown l.subscriber l.node)
          (nodeConfOf "viam_lidar_node" conf)), conf.Attributes.String "topic", none⟩] := by
  have hu' : ¬ len (TrimSpace (conf.Attributes.String "primary_uri")) = 0 :=
    fun h => hu ((len_TrimSpace_eq_zero_iff _).mp h)
  have ht' : ¬ len (TrimSpace (conf.Attributes.String "topic")) = 0 :=
    fun h => ht ((len_TrimSpace_eq_zero_iff _).mp h)
  unfold ROSLidar.Reconfigure
  simp only [hu', ht', if_false, len_TrimSpace_eq_zero_iff]
  by_cases hb : Blank (conf.Attributes.String "node_name") <;>
  cases hs : l.subscriber <;> cases hn : l.node <;>
  simp only [hb, hs, hn, if_true, if_false, teardown, nodeConfOf, Option.map, Option.toList,
    List.append_nil, List.nil_append, calls_emit_Call, calls_emit_Lock, calls_emit_Unlock,
    calls_warn_ite, List.append_assoc, List.singleton_append] <;>
  generalize ros.NewNode _ _ = rN <;>
  generalize ros.NewSubscriber _ _ = rS <;>
  cases rS <;>
  simp only [ptr, err, calls_emit_Call, calls_emit_Lock, calls_emit_Unlock, calls_warn_ite,
    List.append_assoc, List.singleton_append, List.cons_append, List.nil_append, and_self]

/-! ## A node that does not open -/

/-- C2 fails as stated: when the master is unreachable, the battery sensor
keeps its old subscriber handle after the failed `Reconfigure`, and the lidar
goes on to open a subscriber on the nil node and, that open succeeding,
returns no error. -/
theorem C2_counterexample :
    (¬ Blank (confOk.Attributes.String "primary_uri") ∧
      ¬ Blank (confOk.Attributes.String "topic")) ∧
    (b1.Reconfigure rosDown w0 confOk).ret = some "master unreachable" ∧
    (b1.Reconfigure rosDown w0 confOk).self.node = none ∧
    (b1.Reconfigure rosDown w0 confOk).self.subscriber = some ⟨2⟩ ∧
    (l1.Reconfigure rosDown w0 confOk).world.calls =
      [.SubscriberClose ⟨2⟩, .NodeClose ⟨1⟩,
       .NewNode ⟨"viam_lidar_node", "localhost:11311"⟩,
       .NewSubscriber ⟨none, "/voltage", none⟩] ∧
    (l1.Reconfigure rosDown w0 confOk).ret = none ∧
    (l1.Reconfigure rosDown w0 confOk).self.subscriber = some ⟨3⟩ := by
  decide

/-- C2, amended: for the battery sensor, for every configuration that passes
validation and every prior state, if opening the new node fails then
`Reconfigure` returns that error, its calls are the closes of the old handles
and the node open (no subscriber open is attempted), and afterwards the
sensor holds no node handle while its subscriber field is what it was before
the call. -/
theorem C2_battery_node_open_failure (ros : Goroslib) (w : World) (b : BatterySensor)
    (conf : Config) (e : error)
    (hu : ¬ Blank (conf.Attributes.String "primary_uri"))
    (ht : ¬ Blank (conf.Attributes.String "topic"))
    (hfail : ros.NewNode (w.calls ++ teardown b.subscriber b.node)
      (nodeConfOf "viam_batterysensor_node" conf) = .error e) :
    (b.Reconfigure ros w conf).ret = some e ∧
    (b.Reconfigure ros w conf).world.calls = w.calls ++ teardown b.subscriber b.node ++
      [.NewNode (nodeConfOf "viam_batterysensor_node" conf)] ∧
    (∀ sc, BusCall.NewSubscriber sc ∉
      (b.Reconfigure ros w conf).world.calls.drop w.calls.length) ∧
    (b.Reconfigure ros w conf).self.node = none ∧
    (b.Reconfigure ros w conf).self.subscriber = b.subscriber := by
  obtain ⟨_, _, hnode, hrest⟩ := BatterySensor.Reconfigure_valid ros w b conf hu ht
  rw [hfail] at hnode hrest
  obtain ⟨hret, hcalls, hsub⟩ := hrest
  refine ⟨hret, hcalls, ?_, hnode, hsub⟩
  intro sc
  rw [hcalls, List.append_assoc, List.drop_left]
  cases b.subscriber <;> cases b.node <;> simp [teardown]

/-- C2, amended, on a configured sensor whose master is unreachable. -/
theorem C2_battery_node_open_failure_witness :
    (¬ Blank (confOk.Attributes.String "primary_uri") ∧
      ¬ Blank (confOk.Attributes.String "topic") ∧
      rosDown.NewNode (w0.calls ++ teardown b1.subscriber b1.node)
        (nodeConfOf "viam_batterysensor_node" confOk) = .error "master unreachable") ∧
    ((b1.Reconfigure rosDown w0 confOk).ret = some "master unreachable" ∧
      (b1.Reconfigure rosDown w0 confOk).world.calls = w0.calls ++ teardown b1.subscriber b1.node ++
        [.NewNode (nodeConfOf "viam_batterysensor_node" confOk)] ∧
      (∀ sc, BusCall.NewSubscriber sc ∉
        (b1.Reconfigure rosDown w0 confOk).world.calls.drop w0.calls.length) ∧
      (b1.Reconfigure rosDown w0 confOk).self.node = none ∧
      (b1.Reconfigure rosDown w0 confOk).self.subscriber = b1.subscriber) :=
  ⟨⟨by decide, by decide, rfl⟩,
    C2_battery_node_open_failure rosDown w0 b1 confOk "master unreachable"
      (by decide) (by decide) rfl⟩

/-! ## The last message across a reconfiguration -/

/-- The battery sensor's `Reconfigure` never writes the last message. -/
theorem BatterySensor.Reconfigure_msg (ros : Goroslib) (w : World) (b : BatterySensor)
    (conf : Config) : (b.Reconfigure ros w conf).self.msg = b.msg := by
  by_cases h : Blank (conf.Attributes.String "primary_uri") ∨
      Blank (conf.Attributes.String "topic")
  · have hu : len (TrimSpace (conf.Attributes.String "primary_uri")) = 0 ∨
        len (TrimSpace (conf.Attributes.String "topic")) = 0 := by
      simpa only [len_TrimSpace_eq_zero_iff] using h
    unfold BatterySensor.Reconfigure
    rcases hu with hu | hu
    · simp [hu]
    · by_cases hp : len (TrimSpace (conf.Attributes.String "primary_uri")) = 0
      · simp [hp]
      · simp [hp, hu]
  · rw [not_or] at h
    exact (BatterySensor.Reconfigure_valid ros w b conf h.1 h.2).1

/-- C3 fails as stated: a battery sensor that holds a message still answers
`Readings` with that message's voltage after a successful `Reconfigure`. -/
theorem C3_counterexample :
    (b1.Reconfigure rosOk w0 confOk).ret = none ∧
    ((b1.Reconfigure rosOk w0 confOk).self.Readings
        (b1.Reconfigure rosOk w0 confOk).world []).ret =
      (some [("voltage", Any.float32 ⟨0x41400000⟩)], none) := by
  decide

/-- C3, amended: for the battery sensor, every `Reconfigure`, successful or
not, leaves the last message as it was, so `Readings` answers after it as
the message held before decides: a sensor that already holds a received
message keeps returning the voltage of that message.  On every fresh sensor
that `NewBatterySensor` returns, the last message is absent and `Readings`
returns an error and no map until `processMessage` is invoked. -/
theorem C3_reconfigure_keeps_last_message (ros : Goroslib) (w w' : World)
    (b : BatterySensor) (conf conf' : Config) (extra : Readings) :
    (b.Reconfigure ros w conf).self.msg = b.msg ∧
    ((b.Reconfigure ros w conf).self.Readings w' extra).ret =
      (match b.msg with
        | none => (none, some "battery message not prepared")
        | some m => (some [("voltage", Any.float32 m.Voltage)], none)) ∧
    (∀ fresh, (NewBatterySensor ros w conf').self = some fresh →
      fresh.msg = none ∧
      (fresh.Readings w' extra).ret = (none, some "battery message not prepared")) := by
  have hmsg := BatterySensor.Reconfigure_msg ros w b conf
  refine ⟨hmsg, ?_, ?_⟩
  · unfold BatterySensor.Readings
    rw [hmsg]
    cases b.msg <;> rfl
  · intro fresh hnew
    have hfresh : fresh.msg = none := by
      unfold NewBatterySensor at hnew
      simp only at hnew
      split at hnew
      · exact absurd hnew (by simp)
      · simp only [Option.some.injEq] at hnew
        rw [← hnew, BatterySensor.Reconfigure_msg]
    refine ⟨hfresh, ?_⟩
    unfold BatterySensor.Readings
    rw [hfresh]

/-- C3, amended, on a sensor holding a message whose master is unreachable,
and on a freshly built sensor. -/
theorem C3_reconfigure_keeps_last_message_witness :
    ((NewBatterySensor rosOk w0 confOk).self = some
        { Named := "battery", nodeName := "viam_batterysensor_node",
          primaryUri := "localhost:11311", topic := "/voltage",
          node := some ⟨0⟩, subscriber := some ⟨1⟩, msg := none }) ∧
    (b1.Reconfigure rosDown w0 confOk).self.msg = b1.msg ∧
    ((b1.Reconfigure rosDown w0 confOk).self.Readings w0 []).ret =
      (match b1.msg with
        | none => (none, some "battery message not prepared")
        | some m => (some [("voltage", Any.float32 m.Voltage)], none)) ∧
    (BatterySensor.mk "battery" "viam_batterysensor_node" "localhost:11311" "/voltage"
      (some ⟨0⟩) (some ⟨1⟩) none).msg = none ∧
    ((BatterySensor.mk "battery" "viam_batterysensor_node" "localhost:11311" "/voltage"
      (some ⟨0⟩) (some ⟨1⟩) none).Readings w0 []).ret =
      (none, some "battery message not prepared") :=
  ⟨by decide,
    (C3_reconfigure_keeps_last_message rosDown w0 w0 b1 confOk confOk []).1,
    (C3_reconfigure_keeps_last_message rosDown w0 w0 b1 confOk confOk []).2.1,
    (C3_reconfigure_keeps_last_message rosOk w0 w0 b1 confOk confOk []).2.2 _ (by decide)⟩

/-! ## Reconfiguring a configured adapter -/

/-- C5 fails as stated: when the node open fails, the battery sensor's
`Reconfigure` makes three calls only, the subscriber open is missing. -/
theorem C5_counterexample :
    (b1.Reconfigure rosDown w0 confOk).world.calls =
      [.SubscriberClose ⟨2⟩, .NodeClose ⟨1⟩,
       .NewNode ⟨"viam_batterysensor_node", "localhost:11311"⟩] := by
  decide

/-- C5, amended: for both adapter kinds, when `Reconfigure` is called with a
configuration that passes validation on an adapter that holds a node and a
subscriber, its first three bus calls are, in this order: close the old
subscriber, close the old node, open the new node; when that open succeeds,
the fourth and last call opens the new subscriber on the new node, and when
it fails on the battery sensor there is no fourth call.  What the two close
calls return changes neither the calls made nor what `Reconfigure`
returns. -/
theorem C5_reconfigure_call_order (ros : Goroslib) (w : World) (b : BatterySensor)
    (l : ROSLidar) (conf : Config) (s s' : Subscriber) (n n' : Node)
    (hu : ¬ Blank (conf.Attributes.String "primary_uri"))
    (ht : ¬ Blank (conf.Attributes.String "topic"))
    (hbs : b.subscriber = some s) (hbn : b.node = some n)
    (hls : l.subscriber = some s') (hln : l.node = some n') :
    (b.Reconfigure ros w conf).world.calls =
      w.calls ++ [.SubscriberClose s, .NodeClose n,
        .NewNode (nodeConfOf "viam_batterysensor_node" conf)] ++
      (match ros.NewNode (w.calls ++ [.SubscriberClose s, .NodeClose n])
          (nodeConfOf "viam_batterysensor_node" conf) with
        | .ok nd => [.NewSubscriber ⟨some nd, conf.Attributes.String "topic",
            some .processMessage⟩]
        | .error _ => []) ∧
    (∃ rest, (l.Reconfigure ros w conf).world.calls =
        w.calls ++ [.SubscriberClose s', .NodeClose n',
          .NewNode (nodeConfOf "viam_lidar_node" conf)] ++ rest ∧
      ∀ nd, ros.NewNode (w.calls ++ [.SubscriberClose s', .NodeClose n'])
          (nodeConfOf "viam_lidar_node" conf) = .ok nd →
        rest = [.NewSubscriber ⟨some nd, conf.Attributes.String "topic", none⟩]) ∧
    (∀ cn cs,
      (b.Reconfigure { ros with NodeClose := cn, SubscriberClose := cs } w conf).ret =
        (b.Reconfigure ros w conf).ret ∧
      (b.Reconfigure { ros with NodeClose := cn, SubscriberClose := cs } w conf).world.calls =
        (b.Reconfigure ros w conf).world.calls) ∧
    (∀ cn cs,
      (l.Reconfigure { ros with NodeClose := cn, SubscriberClose := cs } w conf).ret =
        (l.Reconfigure ros w conf).ret ∧
      (l.Reconfigure { ros with NodeClose := cn, SubscriberClose := cs } w conf).world.calls =
        (l.Reconfigure ros w conf).world.calls) := by
  have hb := fun r => BatterySensor.Reconfigure_valid r w b conf hu ht
  have hl := fun r => ROSLidar.Reconfigure_accepted r w l conf hu ht
  simp only [hbs, hbn, hls, hln, teardown, Option.map, Option.toList, List.append_assoc,
    List.singleton_append, List.cons_append, List.nil_append] at hb hl
  refine ⟨?_, ?_, ?_, ?_⟩
  · have h := (hb ros).2.2.2
    revert h
    cases ros.NewNode (w.calls ++ [.SubscriberClose s, .NodeClose n])
      (nodeConfOf "viam_batterysensor_node" conf) <;>
    simp only [List.append_assoc, List.cons_append, List.nil_append, List.append_nil] <;>
    intro h
    · exact h.2.1
    · exact h.2.1
  · refine ⟨[.NewSubscriber ⟨ptr (ros.NewNode (w.calls ++ [.SubscriberClose s', .NodeClose n'])
      (nodeConfOf "viam_lidar_node" conf)), conf.Attributes.String "topic", none⟩], ?_, ?_⟩
    · rw [(hl ros).2.2.2.2]
      simp only [List.append_assoc, List.cons_append, List.nil_append]
    · intro nd hnd
      rw [hnd]
      rfl
  · intro cn cs
    have h1 := (hb { ros with NodeClose := cn, SubscriberClose := cs }).2.2.2
    have h2 := (hb ros).2.2.2
    simp only at h1
    revert h1 h2
    cases ros.NewNode (w.calls ++ [.SubscriberClose s, .NodeClose n])
      (nodeConfOf "viam_batterysensor_node" conf) <;>
    simp only <;> intro h1 h2
    · exact ⟨h1.1.trans h2.1.symm, h1.2.1.trans h2.2.1.symm⟩
    · exact ⟨h1.1.trans h2.1.symm, h1.2.1.trans h2.2.1.symm⟩
  · intro cn cs
    have h1 := (hl { ros with NodeClose := cn, SubscriberClose := cs })
    have h2 := (hl ros)
    simp only at h1
    exact ⟨h1.2.2.2.1.trans h2.2.2.2.1.symm, h1.2.2.2.2.trans h2.2.2.2.2.symm⟩

/-- C5, amended, on a configured sensor and a configured lidar whose bus
client fails every close. -/
theorem C5_reconfigure_call_order_witness :
    (¬ Blank (confOk.Attributes.String "primary_uri") ∧
      ¬ Blank (confOk.Attributes.String "topic") ∧
      b1.subscriber = some ⟨2⟩ ∧ b1.node = some ⟨1⟩ ∧
      l1.subscriber = some ⟨2⟩ ∧ l1.node = some ⟨1⟩) ∧
    ((b1.Reconfigure rosCloseFails w0 confOk).world.calls =
      w0.calls ++ [.SubscriberClose ⟨2⟩, .NodeClose ⟨1⟩,
        .NewNode (nodeConfOf "viam_batterysensor_node" confOk)] ++
      (match rosCloseFails.NewNode (w0.calls ++ [.SubscriberClose ⟨2⟩, .NodeClose ⟨1⟩])
          (nodeConfOf "viam_batterysensor_node" confOk) with
        | .ok nd => [.NewSubscriber ⟨some nd, confOk.Attributes.String "topic",
            some .processMessage⟩]
        | .error _ => []) ∧
    (∃ rest, (l1.Reconfigure rosCloseFails w0 confOk).world.calls =
        w0.calls ++ [.SubscriberClose ⟨2⟩, .NodeClose ⟨1⟩,
          .NewNode (nodeConfOf "viam_lidar_node" confOk)] ++ rest ∧
      ∀ nd, rosCloseFails.NewNode (w0.calls ++ [.SubscriberClose ⟨2⟩, .NodeClose ⟨1⟩])
          (nodeConfOf "viam_lidar_node" confOk) = .ok nd →
        rest = [.NewSubscriber ⟨some nd, confOk.Attributes.String "topic", none⟩]) ∧
    (∀ cn cs,
      (b1.Reconfigure { rosCloseFails with NodeClose := cn, SubscriberClose := cs }
          w0 confOk).ret = (b1.Reconfigure rosCloseFails w0 confOk).ret ∧
      (b1.Reconfigure { rosCloseFails with NodeClose := cn, SubscriberClose := cs }
          w0 confOk).world.calls = (b1.Reconfigure rosCloseFails w0 confOk).world.calls) ∧
    (∀ cn cs,
      (l1.Reconfigure { rosCloseFails with NodeClose := cn, SubscriberClose := cs }
          w0 confOk).ret = (l1.Reconfigure rosCloseFails w0 confOk).ret ∧
      (l1.Reconfigure { rosCloseFails with NodeClose := cn, SubscriberClose := cs }
          w0 confOk).world.calls = (l1.Reconfigure rosCloseFails w0 confOk).world.calls)) :=
  ⟨⟨by decide, by decide, by decide, by decide, by decide, by decide⟩,
    C5_reconfigure_call_order rosCloseFails w0 b1 l1 confOk ⟨2⟩ ⟨2⟩ ⟨1⟩ ⟨1⟩
      (by decide) (by decide) (by decide) (by decide) (by decide) (by decide)⟩

/-! ## The node name -/

/-- C9: for each adapter kind on its own, for every configuration with
non-blank `primary_uri` and `topic`, the node open follows the closes of the
old handles and is made with the configured `primary_uri` as master address
and under the configured `node_name` unchanged, or under the default name of
the kind (`viam_batterysensor_node`, `viam_lidar_node`) when `node_name` is
blank; if this open and the subscriber open of that kind both succeed,
`Reconfigure` returns no error and the adapter holds the two new handles.
The opens of the other kind play no part. -/
theorem C9_default_node_name (ros : Goroslib) (w : World) (b : BatterySensor)
    (l : ROSLidar) (conf : Config)
    (hu : ¬ Blank (conf.Attributes.String "primary_uri"))
    (ht : ¬ Blank (conf.Attributes.String "topic")) :
    ((∃ rest, (b.Reconfigure ros w conf).world.calls =
        w.calls ++ teardown b.subscriber b.node ++
          BusCall.NewNode ⟨if Blank (conf.Attributes.String "node_name")
              then "viam_batterysensor_node" else conf.Attributes.String "node_name",
            conf.Attributes.String "primary_uri"⟩ :: rest) ∧
      (b.Reconfigure ros w conf).self.nodeName =
        (if Blank (conf.Attributes.String "node_name") then "viam_batterysensor_node"
          else conf.Attributes.String "node_name") ∧
      ∀ nd sb,
        ros.NewNode (w.calls ++ teardown b.subscriber b.node)
          ⟨if Blank (conf.Attributes.String "node_name") then "viam_batterysensor_node"
            else conf.Attributes.String "node_name",
            conf.Attributes.String "primary_uri"⟩ = .ok nd →
        ros.NewSubscriber (w.calls ++ teardown b.subscriber b.node ++
          [.NewNode ⟨if Blank (conf.Attributes.String "node_name")
              then "viam_batterysensor_node" else conf.Attributes.String "node_name",
            conf.Attributes.String "primary_uri"⟩])
          ⟨some nd, conf.Attributes.String "topic", some .processMessage⟩ = .ok sb →
        (b.Reconfigure ros w conf).ret = none ∧
        (b.Reconfigure ros w conf).world.calls = w.calls ++ teardown b.subscriber b.node ++
          [.NewNode ⟨if Blank (conf.Attributes.String "node_name")
              then "viam_batterysensor_node" else conf.Attributes.String "node_name",
            conf.Attributes.String "primary_uri"⟩,
           .NewSubscriber ⟨some nd, conf.Attributes.String "topic", some .processMessage⟩] ∧
        (b.Reconfigure ros w conf).self.node = some nd ∧
        (b.Reconfigure ros w conf).self.subscriber = some sb) ∧
    ((∃ rest, (l.Reconfigure ros w conf).world.calls =
        w.calls ++ teardown l.subscriber l.node ++
          BusCall.NewNode ⟨if Blank (conf.Attributes.String "node_name")
              then "viam_lidar_node" else conf.Attributes.String "node_name",
            conf.Attributes.String "primary_uri"⟩ :: rest) ∧
      (l.Reconfigure ros w conf).self.nodeName =
        (if Blank (conf.Attributes.String "node_name") then "viam_lidar_node"
          else conf.Attributes.String "node_name") ∧
      ∀ nd sb,
        ros.NewNode (w.calls ++ teardown l.subscriber l.node)
          ⟨if Blank (conf.Attributes.String "node_name") then "viam_lidar_node"
            else conf.Attributes.String "node_name",
            conf.Attributes.String "primary_uri"⟩ = .ok nd →
        ros.NewSubscriber (w.calls ++ teardown l.subscriber l.node ++
          [.NewNode ⟨if Blank (conf.Attributes.String "node_name")
              then "viam_lidar_node" else conf.Attributes.String "node_name",
            conf.Attributes.String "primary_uri"⟩])
          ⟨some nd, conf.Attributes.String "topic", none⟩ = .ok sb →
        (l.Reconfigure ros w conf).ret = none ∧
        (l.Reconfigure ros w conf).world.calls = w.calls ++ teardown l.subscriber l.node ++
          [.NewNode ⟨if Blank (conf.Attributes.String "node_name")
              then "viam_lidar_node" else conf.Attributes.String "node_name",
            conf.Attributes.String "primary_uri"⟩,
           .NewSubscriber ⟨some nd, conf.Attributes.String "topic", none⟩] ∧
        (l.Reconfigure ros w conf).self.node = some nd ∧
        (l.Reconfigure ros w conf).self.subscriber = some sb) := by
  obtain ⟨_, hbname, hbnode, hbrest⟩ := BatterySensor.Reconfigure_valid ros w b conf hu ht
  obtain ⟨hlname, hlnode, hlsub, hlret, hlcalls⟩ := ROSLidar.Reconfigure_accepted ros w l conf hu ht
  simp only [nodeConfOf] at hbname hbnode hbrest hlname hlnode hlsub hlret hlcalls
  refine ⟨⟨?_, hbname, ?_⟩, ⟨⟨_, hlcalls⟩, hlname, ?_⟩⟩
  · revert hbrest
    generalize ros.NewNode _ _ = rN
    cases rN <;> simp only <;> intro hbrest
    · exact ⟨_, hbrest.2.1⟩
    · exact ⟨_, hbrest.2.1⟩
  · intro nd sb hbN hbS
    rw [hbN] at hbnode hbrest
    simp only [hbS] at hbrest
    exact ⟨hbrest.1, hbrest.2.1, hbnode, hbrest.2.2⟩
  · intro nd sb hlN hlS
    rw [hlN] at hlnode hlsub hlret hlcalls
    simp only [ptr, hlS] at hlsub hlret hlcalls
    exact ⟨hlret, hlcalls, hlnode, hlsub⟩

/-- C9 on a configuration whose node name is a single space: the battery
sensor on a client that refuses the lidar's subscriber, the lidar on a client
that accepts it. -/
theorem C9_default_node_name_witness :
    (¬ Blank (confBlankName.Attributes.String "primary_uri") ∧
      ¬ Blank (confBlankName.Attributes.String "topic")) ∧
    ((b1.Reconfigure rosStrict w0 confBlankName).ret = none ∧
      (b1.Reconfigure rosStrict w0 confBlankName).world.calls =
        w0.calls ++ teardown b1.subscriber b1.node ++
          [.NewNode ⟨if Blank (confBlankName.Attributes.String "node_name")
              then "viam_batterysensor_node" else confBlankName.Attributes.String "node_name",
            confBlankName.Attributes.String "primary_uri"⟩,
           .NewSubscriber ⟨some ⟨2⟩, confBlankName.Attributes.String "topic",
            some .processMessage⟩] ∧
      (b1.Reconfigure rosStrict w0 confBlankName).self.node = some ⟨2⟩ ∧
      (b1.Reconfigure rosStrict w0 confBlankName).self.subscriber = some ⟨3⟩) ∧
    ((l1.Reconfigure rosOk w0 confBlankName).ret = none ∧
      (l1.Reconfigure rosOk w0 confBlankName).world.calls =
        w0.calls ++ teardown l1.subscriber l1.node ++
          [.NewNode ⟨if Blank (confBlankName.Attributes.String "node_name")
              then "viam_lidar_node" else confBlankName.Attributes.String "node_name",
            confBlankName.Attributes.String "primary_uri"⟩,
           .NewSubscriber ⟨some ⟨2⟩, confBlankName.Attributes.String "topic", none⟩] ∧
      (l1.Reconfigure rosOk w0 confBlankName).self.node = some ⟨2⟩ ∧
      (l1.Reconfigure rosOk w0 confBlankName).self.subscriber = some ⟨3⟩) :=
  ⟨⟨by decide, by decide⟩,
    (C9_default_node_name rosStrict w0 b1 l1 confBlankName (by decide) (by decide)).1.2.2
      ⟨2⟩ ⟨3⟩ rfl rfl,
    (C9_default_node_name rosOk w0 b1 l1 confBlankName (by decide) (by decide)).2.2.2
      ⟨2⟩ ⟨3⟩ rfl rfl⟩

/-- The calls of the witness above, evaluated: the blank node name is
replaced by the default of each kind. -/
theorem Reconfigure_blank_name_calls :
    (b1.Reconfigure rosStrict w0 confBlankName).world.calls =
      [.SubscriberClose ⟨2⟩, .NodeClose ⟨1⟩,
       .NewNode ⟨"viam_batterysensor_node", "localhost:11311"⟩,
       .NewSubscriber ⟨some ⟨2⟩, "/t", some .processMessage⟩] ∧
    (l1.Reconfigure rosOk w0 confBlankName).world.calls =
      [.SubscriberClose ⟨2⟩, .NodeClose ⟨1⟩,
       .NewNode ⟨"viam_lidar_node", "localhost:11311"⟩,
       .NewSubscriber ⟨some ⟨2⟩, "/t", none⟩] := by
  decide

end ViamRos
